import Mathlib

/-!
# Verification of the LakeOS kernel core (TCB, VSpace, IPC helpers)

A shallow embedding of the parts of the LakeOS microkernel relevant to the
claims under study, translated from the Rust sources:

* `src/kernel/src/objects/tcb.rs` — the `TcbObj` thread control block and its
  operations (`configure`, `install_vspace`, `switch_vspace`, `activate`,
  `asid`, `thread_id`, `timeslice_sub`, `sending_badge`);
* `src/naive/src/process.rs` — `ProcessBuilder::spawn`'s frame-mapping retry
  loop;
* `src/lib/naive/src/ep_server.rs` — `EpServer::handle_ipc`'s notification
  dispatch loop;
* `src/lib/naive/src/os_str_bytes.rs` — the `Buf`/`OsString` byte-buffer
  conversions.

Machine integers (`usize`, `u64`) are embedded as `Nat`; in the code
fragments modelled here no arithmetic overflows (the operations are masks,
shifts and a saturating subtraction, which on `Nat` coincide with the `usize`
behaviour on in-range values).  Fallible operations return `Except SysError`;
in-place `Cell` mutation is made explicit by returning the updated state.
-/

set_option autoImplicit false

namespace LakeOS

/-- Embeds `MASK!(n)` from the kernel sources: the low-`n`-bit mask `2^n - 1`. -/
def MASK (n : Nat) : Nat := 2 ^ n - 1

/-- Kernel object types, from the capability type tag
(spec §3: `{Null, Untyped, CNode, Tcb, Endpoint, Notification, Reply, Frame, VTable}`). -/
inductive ObjType where
  | Null
  | Untyped
  | CNode
  | Tcb
  | Endpoint
  | Notification
  | Reply
  | Frame
  | VTable
  deriving DecidableEq, Repr

/-- The kernel error codes (spec §7 closed set, plus `CSpaceNotFound` which
`tcb.rs` uses explicitly). -/
inductive SysError where
  | CSpaceLookup
  | GuardMismatch
  | SlotNotEmpty
  | SlotIsEmpty
  | InvalidCapability
  | InvalidArgument
  | NotEnoughMemory
  | WouldBlock
  | VSpaceTableMiss (level : Nat)
  | VSpaceSlotOccupied
  | VSpaceSlotTypeError
  | AlignmentError
  | Cancelled
  | CSpaceNotFound
  deriving DecidableEq, Repr

/-- A capability word (`CapRaw`): object physical address, type tag, and the
mapped-vaddr/ASID/level fields carried by Frame and VTable capabilities. -/
structure CapRaw where
  paddr : Nat
  objType : ObjType
  mappedVaddr : Nat
  mappedAsid : Nat
  mappedLevel : Nat
  deriving DecidableEq, Repr

/-- Embeds `NullCap::mint()`: the empty capability stored in a fresh slot. -/
def NullCap.mint : CapRaw :=
  { paddr := 0, objType := .Null, mappedVaddr := 0, mappedAsid := 0, mappedLevel := 0 }

/-- Embeds `set_mapped_vaddr_asid(vaddr, asid, level)` on a Frame/VTable capability
slot: records the mapping triple in the capability word. -/
def CapRaw.set_mapped_vaddr_asid (c : CapRaw) (vaddr asid level : Nat) : CapRaw :=
  { c with mappedVaddr := vaddr, mappedAsid := asid, mappedLevel := level }

/-- Embeds `VTableCap::try_from(&slot)`: view the slot as a VTable capability,
failing on a type mismatch.  (The typed-view machinery lives outside the
`tcb.rs` source; the spec's error for a type mismatch is `InvalidCapability`.) -/
def VTableCap.try_from (c : CapRaw) : Except SysError CapRaw :=
  if c.objType = ObjType.VTable then .ok c else .error .InvalidCapability

/-- Embeds `NullCap::try_from(&slot)` succeeds exactly when the slot is Null.
Modelled from the spec: the destination slot of a derive must be Null
(`SlotNotEmpty` otherwise). -/
def NullCap.try_from (c : CapRaw) : Except SysError CapRaw :=
  if c.objType = ObjType.Null then .ok c else .error .SlotNotEmpty

/-- Modelled from the spec: `derive(parent, dst_null_slot)` — "the source slot
must be non-Null; the destination slot must be Null; the destination is
populated with a capability that points at the same object but sits as a
child in the derivation tree."  The derivation-tree links are irrelevant to
the claims here, so the populated destination is the copied capability word.
Returns the new content of the destination slot. -/
def derive (src dst : CapRaw) : Except SysError CapRaw :=
  if src.objType = ObjType.Null then .error .SlotIsEmpty
  else if dst.objType ≠ ObjType.Null then .error .SlotNotEmpty
  else .ok src

/-- Modelled from the spec: `Aarch64TopLevel::LEVEL`, the level recorded for a
top-level table (PGD) capability.  `install_vspace` in `tcb.rs` uses the
literal 4 for the same purpose. -/
def Aarch64TopLevel.LEVEL : Nat := 4

/-- Thread states (`ThreadState` in `tcb.rs`). -/
inductive ThreadState where
  | Ready
  | Sending
  | Receiving
  | Fault
  deriving DecidableEq, Repr

/-- The saved user register context.  Its exact register layout is
architecture code outside `tcb.rs`; the claims only require that the whole
frame is restored verbatim, so it is embedded as an opaque register list. -/
structure TrapFrame where
  regs : List Nat
  deriving DecidableEq, Repr

/-- Embeds `TrapFrame::new()`. -/
def TrapFrame.new : TrapFrame := ⟨[]⟩

/-- The thread control block (`TcbObj` in `tcb.rs`): trap frame, four embedded
capability slots, fault, timeslice, state and sending badge.  The intrusive
queue node is omitted (no claim mentions it).  The struct is
`#[repr(align(1024))]`: TCB objects live at `2^10`-aligned addresses. -/
structure TcbObj where
  tf : TrapFrame
  cspace : CapRaw
  vspace : CapRaw
  reply_cap : CapRaw
  fault_handler_ep : CapRaw
  fault : Option Unit
  time_slice : Nat
  state : ThreadState
  sendingBadge : Nat
  deriving DecidableEq, Repr

/-- The alignment of `TcbObj` from `#[repr(align(1024))]`. -/
def TCB_ALIGN : Nat := 1024

/-- Modelled from the spec: `TCB_OBJ_SZ = size_of::<TcbObj>().next_power_of_two()`.
`size_of::<TcbObj>` depends on the architecture `TrapFrame` layout, which is
outside the sources; the spec states "TCB objects are aligned to their size",
i.e. the fields fit within the 1024-byte alignment unit, so the rounded size
equals the alignment. -/
def TCB_OBJ_SZ : Nat := 1024

/-- Embeds `TcbObj::new()`. -/
def TcbObj.new : TcbObj :=
  { tf := TrapFrame.new
    cspace := NullCap.mint
    vspace := NullCap.mint
    reply_cap := NullCap.mint
    fault_handler_ep := NullCap.mint
    fault := none
    time_slice := 0
    state := .Ready
    sendingBadge := 0 }

/-- Embeds `TcbObj::thread_id()`: bits `[47:10]` of the object's own address.
The object address is not a field of the struct, so it is passed explicitly. -/
def thread_id (addr : Nat) : Nat := (addr &&& MASK 48) >>> 10

/-- Embeds `TcbObj::set_timeslice`. -/
def TcbObj.set_timeslice (tcb : TcbObj) (ts : Nat) : TcbObj :=
  { tcb with time_slice := ts }

/-- Embeds `TcbObj::timeslice`. -/
def TcbObj.timeslice (tcb : TcbObj) : Nat := tcb.time_slice

/-- Embeds `TcbObj::timeslice_sub(t)`: saturating subtraction of the elapsed tick
count (`usize::saturating_sub` coincides with truncated `Nat` subtraction). -/
def TcbObj.timeslice_sub (tcb : TcbObj) (t : Nat) : TcbObj :=
  tcb.set_timeslice (tcb.timeslice - t)

/-- Embeds `TcbObj::sending_badge()`: `None` iff the stored badge is 0. -/
def TcbObj.sending_badge (tcb : TcbObj) : Option Nat :=
  if tcb.sendingBadge = 0 then none else some tcb.sendingBadge

/-- Embeds `TcbObj::set_sending_badge(badge)`. -/
def TcbObj.set_sending_badge (tcb : TcbObj) (badge : Nat) : TcbObj :=
  { tcb with sendingBadge := badge }

/-- Embeds `TcbObj::asid()`: bits `[28:12]` of the PGD physical address held in the
vspace slot, or a type-mismatch error when no VTable is installed. -/
def TcbObj.asid (tcb : TcbObj) : Except SysError Nat :=
  match VTableCap.try_from tcb.vspace with
  | .error e => .error e
  | .ok pgd_cap => .ok ((pgd_cap.paddr >>> 12) &&& MASK 16)

/-- Embeds `TcbObj::install_vspace(vspace)`: records the PGD-derived ASID in the
capability and stores the capability word in the TCB's vspace slot.  Returns
the updated TCB together with the updated source capability word (the source
slot is mutated through the `VTableCap` reference). -/
def TcbObj.install_vspace (tcb : TcbObj) (vspace : CapRaw) : TcbObj × CapRaw :=
  let asid := (vspace.paddr >>> 12) &&& MASK 16
  let vspace := vspace.set_mapped_vaddr_asid 0 asid 4
  let raw := vspace
  ({ tcb with vspace := raw }, vspace)

/-- The outcome of `TcbObj::configure`: the syscall result, the TCB as left
by the call (mutation is in place in the source, so the TCB is returned even
on error), and the updated source vspace capability word when a vspace was
supplied (`configure` writes the mapping triple back into the *source* slot
through the `VTableCap` reference). -/
structure ConfigureOut where
  result : Except SysError Unit
  tcb : TcbObj
  vspaceSrc : Option CapRaw
  deriving Repr

/-- The vspace stage of `TcbObj::configure`:
`NullCap::try_from(&self.vspace)?`, `vs.derive(&dst_vspace)?`, then
`vs.set_mapped_vaddr_asid(0, dst_vspace.paddr().0 >> 12, Aarch64TopLevel::LEVEL)`.
Fails before any mutation; on success returns the TCB with the derived
capability in its vspace slot and the updated source capability word.
Note the recorded ASID value is the unmasked `paddr >> 12`. -/
def TcbObj.configureVspaceStage (tcb : TcbObj) (vs : CapRaw) :
    Except SysError (TcbObj × CapRaw) :=
  match NullCap.try_from tcb.vspace with
  | .error e => .error e
  | .ok dst_vspace =>
    match derive vs dst_vspace with
    | .error e => .error e
    | .ok d =>
      .ok ({ tcb with vspace := d },
        vs.set_mapped_vaddr_asid 0 (d.paddr >>> 12) Aarch64TopLevel.LEVEL)

/-- The cspace stage of `TcbObj::configure`:
`NullCap::try_from(&self.cspace)?` then `cs.derive(&dst_cspace)?`. -/
def TcbObj.configureCspaceStage (tcb : TcbObj) (cs : CapRaw) :
    Except SysError TcbObj :=
  match NullCap.try_from tcb.cspace with
  | .error e => .error e
  | .ok dst_cspace =>
    match derive cs dst_cspace with
    | .error e => .error e
    | .ok d => .ok { tcb with cspace := d }

/-- The fault-handler stage of `TcbObj::configure`:
`NullCap::try_from(&self.fault_handler_ep)?` then `ep.derive(&thread_handler)?`. -/
def TcbObj.configureFaultEpStage (tcb : TcbObj) (ep : CapRaw) :
    Except SysError TcbObj :=
  match NullCap.try_from tcb.fault_handler_ep with
  | .error e => .error e
  | .ok thread_handler =>
    match derive ep thread_handler with
    | .error e => .error e
    | .ok d => .ok { tcb with fault_handler_ep := d }

/-- The tail of `TcbObj::configure` after the vspace and cspace arguments
have been handled: the `if let Some(ep) = fault_handler_ep` block. -/
def TcbObj.configureEpPart (tcb : TcbObj) (fault_handler_ep : Option CapRaw)
    (vsSrc : Option CapRaw) : ConfigureOut :=
  match fault_handler_ep with
  | none => ⟨.ok (), tcb, vsSrc⟩
  | some ep =>
    match tcb.configureFaultEpStage ep with
    | .error e => ⟨.error e, tcb, vsSrc⟩
    | .ok tcb3 => ⟨.ok (), tcb3, vsSrc⟩

/-- The tail of `TcbObj::configure` after the vspace argument has been
handled: the `if let Some(cs) = cspace` block followed by the fault-handler
block. -/
def TcbObj.configureRest (tcb : TcbObj) (cspace fault_handler_ep : Option CapRaw)
    (vsSrc : Option CapRaw) : ConfigureOut :=
  match cspace with
  | none => tcb.configureEpPart fault_handler_ep vsSrc
  | some cs =>
    match tcb.configureCspaceStage cs with
    | .error e => ⟨.error e, tcb, vsSrc⟩
    | .ok tcb2 => tcb2.configureEpPart fault_handler_ep vsSrc

/-- Embeds `TcbObj::configure(cspace, vspace, fault_handler_ep)`: handles the vspace
argument first, then the cspace, then the fault-handler endpoint, propagating
the first error with `?`.  Mutations performed by completed stages persist
when a later stage fails (in the source they happened in place through
`Cell`s), which this embedding makes explicit by returning the post-state
alongside the result. -/
def TcbObj.configure (tcb : TcbObj)
    (cspace : Option CapRaw) (vspace : Option CapRaw)
    (fault_handler_ep : Option CapRaw) : ConfigureOut :=
  match vspace with
  | none => tcb.configureRest cspace fault_handler_ep none
  | some vs =>
    match tcb.configureVspaceStage vs with
    | .error e => ⟨.error e, tcb, none⟩
    | .ok (tcb1, vsSrc) => tcb1.configureRest cspace fault_handler_ep (some vsSrc)

/-- The machine state touched by `switch_vspace` and `activate`: the
installed user translation root and ASID, a log of ASID-tagged TLB
invalidations, the per-CPU user-readable register `tpidrro_el0`, and the trap
frame handed to `TrapFrame::restore`. -/
structure Machine where
  installedRoot : Option Nat
  installedAsid : Option Nat
  tlbInvalidated : List Nat
  tpidrro_el0 : Nat
  restoredTf : Option TrapFrame
  deriving DecidableEq, Repr

/-- Embeds `VSpace::install_user_vspace(asid)` on the root table found at the PGD
physical address: installs the user translation root tagged with `asid`. -/
def Machine.install_user_vspace (m : Machine) (root asid : Nat) : Machine :=
  { m with installedRoot := some root, installedAsid := some asid }

/-- Embeds `VSpace::invalidate_tlb_by_asid(asid)`: records an ASID-tagged TLB
invalidation. -/
def Machine.invalidate_tlb_by_asid (m : Machine) (asid : Nat) : Machine :=
  { m with tlbInvalidated := asid :: m.tlbInvalidated }

/-- Embeds `TcbObj::switch_vspace()`: view the vspace slot as a VTable (`?`), read
the ASID (`?`), then install the user vspace and invalidate its TLB entries.
A failure happens before any machine-state change. -/
def TcbObj.switch_vspace (tcb : TcbObj) (m : Machine) :
    Except SysError Unit × Machine :=
  match VTableCap.try_from tcb.vspace with
  | .error e => (.error e, m)
  | .ok pgd_cap =>
    match tcb.asid with
    | .error e => (.error e, m)
    | .ok asid =>
      let m := m.install_user_vspace pgd_cap.paddr asid
      let m := m.invalidate_tlb_by_asid asid
      (.ok (), m)

/-- Embeds `TcbObj::activate()`: writes `(cpuid << 48) | thread_id` into
`tpidrro_el0`, switches to the thread's vspace with any error explicitly
ignored (`unwrap_or(())`, for the idle thread), and restores the trap frame.
`addr` is the TCB object's own address and `cpuid` the current CPU id. -/
def TcbObj.activate (tcb : TcbObj) (addr cpuid : Nat) (m : Machine) : Machine :=
  let m := { m with tpidrro_el0 := (cpuid <<< 48) ||| thread_id addr }
  let m := (tcb.switch_vspace m).2
  { m with restoredTf := some tcb.tf }

/-! ## `ProcessBuilder::spawn`'s frame-mapping retry loop (`src/naive/src/process.rs`)

`spawn` maps each ELF frame at level 4 of the child's VSpace; the spaceman
`VSpaceMan::map_frame`/`map_table` implementations live outside the sources,
so the page-table state along the single `vaddr` being mapped is modelled
from the spec. -/

/-- The page-table state along one `vaddr` path: whether each of the three
intermediate tables below the (always present) root exists, and whether the
leaf frame slot is already occupied. -/
structure VSpaceSt where
  t1 : Bool
  t2 : Bool
  t3 : Bool
  frame : Bool
  deriving DecidableEq, Repr

/-- Modelled from the spec: `map_frame` "requires that all intermediate
tables along `vaddr` already exist; otherwise it fails with
`VSpaceTableMiss{level}` and the caller is expected to `map_table` the
missing level first"; a doubly-mapped slot is refused as occupied. -/
def map_frame (v : VSpaceSt) : Except SysError VSpaceSt :=
  if v.t1 then
    if v.t2 then
      if v.t3 then
        if v.frame then .error .VSpaceSlotOccupied
        else .ok { v with frame := true }
      else .error (.VSpaceTableMiss 3)
    else .error (.VSpaceTableMiss 2)
  else .error (.VSpaceTableMiss 1)

/-- Modelled from the spec: `map_table` "installs an intermediate table at
the computed parent slot" of the given level. -/
def map_table (v : VSpaceSt) (level : Nat) : VSpaceSt :=
  match level with
  | 1 => { v with t1 := true }
  | 2 => { v with t2 := true }
  | 3 => { v with t3 := true }
  | _ => v

/-- The number of missing intermediate tables (termination measure for the
retry loop). -/
def missingTables (v : VSpaceSt) : Nat :=
  (if v.t1 then 0 else 1) + (if v.t2 then 0 else 1) + (if v.t3 then 0 else 1)

/-- The levels of the missing intermediate tables, in the order `map_frame`
reports them. -/
def missingLevels (v : VSpaceSt) : List Nat :=
  (if v.t1 then [] else [1]) ++ (if v.t2 then [] else [2]) ++ (if v.t3 then [] else [3])

/-- Outcome of the `while let Err(e) = map_frame …` loop in
`ProcessBuilder::spawn`: normal exit with the final VSpace state and the
levels passed to `map_table` (in order), or a `panic!` on any error other
than `VSpaceTableMiss`. -/
inductive SpawnMapResult where
  | ok (v : VSpaceSt) (mappedTables : List Nat)
  | panic (e : SysError)
  deriving DecidableEq, Repr

/-- The body of the `while let Err(e) = map_frame …` loop in
`ProcessBuilder::spawn`, with an explicit iteration budget: the source loop
is unbounded, so `none` marks budget exhaustion and is later proved
unreachable for a sufficient budget (each retry installs one missing table).
On `VSpaceTableMiss{level}` the builder allocates a fresh VTable, calls
`map_table` at the same `vaddr` and the reported `level`, and retries
`map_frame`; it exits the loop when `map_frame` succeeds and `panic!`s on any
other error. -/
def spawnMapLoopGo : Nat → VSpaceSt → Option SpawnMapResult
  | 0, _ => none
  | fuel + 1, v =>
    match map_frame v with
    | .ok v2 => some (.ok v2 [])
    | .error (.VSpaceTableMiss level) =>
      match spawnMapLoopGo fuel (map_table v level) with
      | some (.ok v2 ls) => some (.ok v2 (level :: ls))
      | some (.panic e) => some (.panic e)
      | none => none
    | .error e => some (.panic e)

/-- The retry loop of `ProcessBuilder::spawn`; a budget of 4 covers the at
most three missing intermediate tables plus the final `map_frame`. -/
def spawn_map_loop (v : VSpaceSt) : Option SpawnMapResult :=
  spawnMapLoopGo 4 v

/-! ## `EpServer::handle_ipc`'s notification dispatch (`src/lib/naive/src/ep_server.rs`) -/

/-- Embeds `u64::trailing_zeros`, computed by repeated halving with a 64-step
budget; returns 64 when no set bit is found among the low 64 bits. -/
def trailingZerosAux : Nat → Nat → Nat
  | 0, _ => 0
  | fuel + 1, m => if m % 2 = 1 then 0 else 1 + trailingZerosAux fuel (m / 2)

/-- Embeds `u64::trailing_zeros`. -/
def u64_trailing_zeros (m : Nat) : Nat := trailingZerosAux 64 m

/-- Bitwise `!x` on `u64`. -/
def u64_not (x : Nat) : Nat := (2 ^ 64 - 1) ^^^ x

/-- The `IpcMessage::Notification(ntf_mask)` arm of `EpServer::handle_ipc`,
with an explicit iteration budget (the source loop is unbounded; `none` marks
budget exhaustion and is later proved unreachable for a `u64` mask).  While
the mask has a set bit (`trailing_zeros != 64`), take the lowest set bit
`ntf`, invoke its handler when one is registered, and clear the bit
(`ntf_mask &= !(1 << ntf)`).  `handlers` says which bit indices have a
registered handler; the result is the list of bit indices whose handler was
invoked, in invocation order. -/
def handleNotificationsGo (handlers : Nat → Bool) : Nat → Nat → Option (List Nat)
  | 0, _ => none
  | fuel + 1, mask =>
    if u64_trailing_zeros mask ≠ 64 then
      let ntf := u64_trailing_zeros mask
      match handleNotificationsGo handlers fuel (mask &&& u64_not (1 <<< ntf)) with
      | some rest => some (if handlers ntf then ntf :: rest else rest)
      | none => none
    else some []

/-- The notification dispatch loop; a budget of 65 covers the at most 64 set
bits of a `u64` mask plus the final emptiness check. -/
def handle_notifications (handlers : Nat → Bool) (mask : Nat) : Option (List Nat) :=
  handleNotificationsGo handlers 65 mask

/-- The set bit positions of a `u64` mask, in ascending order. -/
def setBits64 (m : Nat) : List Nat :=
  (List.range 64).filter (fun i => m.testBit i)

/-! ## Byte-buffer conversions (`src/lib/naive/src/os_str_bytes.rs`)

`Buf` wraps a plain byte vector.  A Rust `String` is a byte vector carrying
the UTF-8 well-formedness invariant; `String::from_utf8` validates and
rewraps the vector, `String::into_bytes` unwraps it.  Bytes are embedded as
`Nat` (a value ≥ 256 never matches any valid lead- or continuation-byte
range below, so such inputs are simply invalid). -/

/-- A UTF-8 continuation byte: `0x80 ≤ b ≤ 0xBF`. -/
def utf8ContByte (b : Nat) : Bool := 0x80 ≤ b && b ≤ 0xBF

/-- UTF-8 well-formedness of a byte sequence (RFC 3629 / `core::str`):
ASCII bytes stand alone; `C2–DF` start 2-byte sequences; `E0/E1–EC/ED/EE–EF`
start 3-byte sequences (with the restricted second-byte ranges that exclude
overlong forms and surrogates); `F0/F1–F3/F4` start 4-byte sequences (with
the restricted second-byte ranges that exclude overlong forms and code
points above `U+10FFFF`). -/
def utf8Valid : List Nat → Bool
  | [] => true
  | b :: rest =>
    if b ≤ 0x7F then utf8Valid rest
    else if 0xC2 ≤ b && b ≤ 0xDF then
      match rest with
      | c1 :: rest => utf8ContByte c1 && utf8Valid rest
      | [] => false
    else if b = 0xE0 then
      match rest with
      | c1 :: c2 :: rest => (0xA0 ≤ c1 && c1 ≤ 0xBF) && utf8ContByte c2 && utf8Valid rest
      | _ => false
    else if 0xE1 ≤ b && b ≤ 0xEC then
      match rest with
      | c1 :: c2 :: rest => utf8ContByte c1 && utf8ContByte c2 && utf8Valid rest
      | _ => false
    else if b = 0xED then
      match rest with
      | c1 :: c2 :: rest => (0x80 ≤ c1 && c1 ≤ 0x9F) && utf8ContByte c2 && utf8Valid rest
      | _ => false
    else if 0xEE ≤ b && b ≤ 0xEF then
      match rest with
      | c1 :: c2 :: rest => utf8ContByte c1 && utf8ContByte c2 && utf8Valid rest
      | _ => false
    else if b = 0xF0 then
      match rest with
      | c1 :: c2 :: c3 :: rest =>
        (0x90 ≤ c1 && c1 ≤ 0xBF) && utf8ContByte c2 && utf8ContByte c3 && utf8Valid rest
      | _ => false
    else if 0xF1 ≤ b && b ≤ 0xF3 then
      match rest with
      | c1 :: c2 :: c3 :: rest =>
        utf8ContByte c1 && utf8ContByte c2 && utf8ContByte c3 && utf8Valid rest
      | _ => false
    else if b = 0xF4 then
      match rest with
      | c1 :: c2 :: c3 :: rest =>
        (0x80 ≤ c1 && c1 ≤ 0x8F) && utf8ContByte c2 && utf8ContByte c3 && utf8Valid rest
      | _ => false
    else false

/-- Embeds `Buf`: the platform `OsString` representation, "just a `Vec<u8>`". -/
structure Buf where
  inner : List Nat
  deriving DecidableEq, Repr

/-- A Rust `String`: a byte vector with the UTF-8 invariant. -/
structure RustString where
  vec : List Nat
  valid : utf8Valid vec = true

/-- Embeds `String::into_bytes`: the underlying byte vector. -/
def RustString.into_bytes (s : RustString) : List Nat := s.vec

/-- Embeds `String::from_utf8(vec)`: validates; `Ok` wraps the same bytes, `Err`
carries a `FromUtf8Error` whose `into_bytes` returns the original vector. -/
def RustString.from_utf8 (v : List Nat) : Except (List Nat) RustString :=
  if h : utf8Valid v then .ok ⟨v, h⟩ else .error v

/-- Embeds `Buf::from_string(s)`: `Buf { inner: s.into_bytes() }`. -/
def Buf.from_string (s : RustString) : Buf := ⟨s.into_bytes⟩

/-- Embeds `Buf::into_string(self)`:
`String::from_utf8(self.inner).map_err(|p| Buf { inner: p.into_bytes() })`. -/
def Buf.into_string (b : Buf) : Except Buf RustString :=
  match RustString.from_utf8 b.inner with
  | .ok s => .ok s
  | .error v => .error ⟨v⟩

/-- Embeds `OsString`: wraps `Buf` (`FromInner`/`IntoInner`). -/
structure OsString where
  buf : Buf
  deriving DecidableEq, Repr

/-- Embeds `<OsString as OsStringExt>::from_vec(vec)`:
`FromInner::from_inner(Buf { inner: vec })`. -/
def OsString.from_vec (vec : List Nat) : OsString := ⟨⟨vec⟩⟩

/-- Embeds `<OsString as OsStringExt>::into_vec(self)`: `self.into_inner().inner`. -/
def OsString.into_vec (s : OsString) : List Nat := s.buf.inner

/-! ## Concrete objects used in witnesses and counterexamples -/

/-- A concrete CNode capability. -/
def cnodeCapEx : CapRaw :=
  { paddr := 0x2000, objType := .CNode, mappedVaddr := 0, mappedAsid := 0, mappedLevel := 0 }

/-- A concrete VTable (PGD) capability. -/
def vtableCapEx : CapRaw :=
  { paddr := 0x3000, objType := .VTable, mappedVaddr := 0, mappedAsid := 0, mappedLevel := 0 }

/-- A VTable capability whose PGD physical address has bit 28 set, so that
`paddr >> 12` does not fit in 16 bits. -/
def vtableCapHigh : CapRaw :=
  { paddr := 2 ^ 28, objType := .VTable, mappedVaddr := 0, mappedAsid := 0, mappedLevel := 0 }

/-- A concrete Endpoint capability. -/
def epCapEx : CapRaw :=
  { paddr := 0x4000, objType := .Endpoint, mappedVaddr := 0, mappedAsid := 0, mappedLevel := 0 }

/-- A fresh TCB whose cspace slot is already occupied. -/
def tcbBusyCspace : TcbObj := { TcbObj.new with cspace := cnodeCapEx }

/-- A TCB with a VTable installed in its vspace slot. -/
def tcbWithVspace : TcbObj := { TcbObj.new with vspace := vtableCapEx }

/-- A concrete initial machine state. -/
def machineEx : Machine :=
  { installedRoot := none, installedAsid := none, tlbInvalidated := [], tpidrro_el0 := 0,
    restoredTf := none }

/-! ## Theorems -/

/-- Claim C3: calling `switch_vspace` on a TCB whose vspace slot is Null (the
idle thread) changes nothing in the machine state — it installs no user
VSpace and invalidates no TLB entries (it merely returns the type-mismatch
error) — and `activate` on such a TCB proceeds to restore the TrapFrame
without failing. -/
theorem idle_switch_vspace_noop (tcb : TcbObj) (m : Machine) (addr cpuid : Nat)
    (h : tcb.vspace.objType = ObjType.Null) :
    (tcb.switch_vspace m).2 = m ∧
    (tcb.switch_vspace m).1 = .error SysError.InvalidCapability ∧
    (tcb.activate addr cpuid m).installedRoot = m.installedRoot ∧
    (tcb.activate addr cpuid m).installedAsid = m.installedAsid ∧
    (tcb.activate addr cpuid m).tlbInvalidated = m.tlbInvalidated ∧
    (tcb.activate addr cpuid m).restoredTf = some tcb.tf := by
  have htry : VTableCap.try_from tcb.vspace = .error .InvalidCapability := by
    simp [VTableCap.try_from, h]
  simp [TcbObj.switch_vspace, TcbObj.activate, htry]

/-- Witness for C3: the freshly initialized (idle) TCB at a concrete machine
state. -/
theorem idle_switch_vspace_noop_witness :
    (TcbObj.new.switch_vspace machineEx).2 = machineEx ∧
    (TcbObj.new.switch_vspace machineEx).1 = .error SysError.InvalidCapability ∧
    (TcbObj.new.activate 4096 0 machineEx).installedRoot = machineEx.installedRoot ∧
    (TcbObj.new.activate 4096 0 machineEx).installedAsid = machineEx.installedAsid ∧
    (TcbObj.new.activate 4096 0 machineEx).tlbInvalidated = machineEx.tlbInvalidated ∧
    (TcbObj.new.activate 4096 0 machineEx).restoredTf = some TcbObj.new.tf :=
  idle_switch_vspace_noop TcbObj.new machineEx 4096 0 rfl

/-- Claim C4: `thread_id` is bits `[47:10]` of the TCB's own address; the TCB
alignment is `2^10`, equal to the rounded object size; and two TCB addresses
that are `2^10`-aligned and distinct within the 48-bit address space have
distinct thread ids. -/
theorem thread_id_injective :
    (∀ addr : Nat, thread_id addr = (addr &&& (2 ^ 48 - 1)) >>> 10) ∧
    TCB_ALIGN = 2 ^ 10 ∧ TCB_OBJ_SZ = TCB_ALIGN ∧
    (∀ a b : Nat, a % TCB_ALIGN = 0 → b % TCB_ALIGN = 0 →
      a % 2 ^ 48 ≠ b % 2 ^ 48 → thread_id a ≠ thread_id b) := by
  refine ⟨fun _ => rfl, rfl, rfl, fun a b ha hb hne h => ?_⟩
  apply hne
  have hdvd : (2 : Nat) ^ 10 ∣ 2 ^ 48 := pow_dvd_pow 2 (by omega)
  have ha' : a % 2 ^ 48 % 2 ^ 10 = 0 := by
    rw [Nat.mod_mod_of_dvd _ hdvd]; simpa [TCB_ALIGN] using ha
  have hb' : b % 2 ^ 48 % 2 ^ 10 = 0 := by
    rw [Nat.mod_mod_of_dvd _ hdvd]; simpa [TCB_ALIGN] using hb
  unfold thread_id MASK at h
  rw [Nat.and_pow_two_sub_one_eq_mod, Nat.and_pow_two_sub_one_eq_mod,
    Nat.shiftRight_eq_div_pow, Nat.shiftRight_eq_div_pow] at h
  omega

/-- Witness for C4: two adjacent 1024-aligned TCB addresses. -/
theorem thread_id_injective_witness : thread_id 1024 ≠ thread_id 2048 :=
  thread_id_injective.2.2.2 1024 2048 (by decide) (by decide) (by decide)

/-- Claim C5: `timeslice_sub(t)` saturates — the timeslice becomes `old - t`
when `old ≥ t` and `0` otherwise, never exceeds the old value, and
`set_timeslice` refills it. -/
theorem timeslice_sub_saturating (tcb : TcbObj) (t : Nat) :
    ((tcb.timeslice_sub t).timeslice =
      if t ≤ tcb.timeslice then tcb.timeslice - t else 0) ∧
    (tcb.timeslice_sub t).timeslice ≤ tcb.timeslice ∧
    (∀ q, ((tcb.timeslice_sub t).set_timeslice q).timeslice = q) := by
  refine ⟨?_, ?_, fun q => rfl⟩ <;>
    simp only [TcbObj.timeslice_sub, TcbObj.set_timeslice, TcbObj.timeslice]
  · split <;> omega
  · omega

/-- Claim C8: after `set_sending_badge(b)`, `sending_badge()` is `None` iff
`b = 0` and `Some b` for nonzero `b`; badge 0 is never reported. -/
theorem sending_badge_zero_unbadged (tcb : TcbObj) (b : Nat) :
    ((tcb.set_sending_badge b).sending_badge = if b = 0 then none else some b) ∧
    ((tcb.set_sending_badge b).sending_badge = none ↔ b = 0) ∧
    (tcb.set_sending_badge b).sending_badge ≠ some 0 := by
  simp only [TcbObj.set_sending_badge, TcbObj.sending_badge]
  rcases Nat.eq_zero_or_pos b with hb | hb <;> simp [hb]

/-- Counterexample for C1: on a TCB whose vspace slot is Null but whose
cspace slot is occupied, `configure(Some cnode, Some vtable, None)` fails at
the cspace stage, yet the vspace slot has already been rewritten by the
completed vspace stage — the failed invocation is not transactional. -/
theorem configure_not_transactional_cx :
    (tcbBusyCspace.configure (some cnodeCapEx) (some vtableCapEx) none).result =
      .error SysError.SlotNotEmpty ∧
    (tcbBusyCspace.configure (some cnodeCapEx) (some vtableCapEx) none).tcb.vspace ≠
      tcbBusyCspace.vspace :=
  ⟨rfl, by decide⟩

/-- If the vspace stage of `configure` succeeds, the vspace slot was Null;
afterwards the slot holds the derived copy of the argument and the source
capability word carries the recorded (unmasked) `paddr >> 12`. -/
theorem configureVspaceStage_ok (tcb : TcbObj) (vs : CapRaw) (out : TcbObj × CapRaw)
    (h : tcb.configureVspaceStage vs = .ok out) :
    tcb.vspace.objType = ObjType.Null ∧
    out.1 = { tcb with vspace := vs } ∧
    out.2 = vs.set_mapped_vaddr_asid 0 (vs.paddr >>> 12) Aarch64TopLevel.LEVEL := by
  obtain ⟨o1, o2⟩ := out
  unfold TcbObj.configureVspaceStage NullCap.try_from derive at h
  by_cases h1 : tcb.vspace.objType = ObjType.Null <;>
    by_cases h2 : vs.objType = ObjType.Null <;>
      simp [h1, h2, Prod.mk.injEq] at h
  exact ⟨h1, h.1.symm, h.2.symm⟩

/-- If the cspace stage of `configure` succeeds, the cspace slot was Null and
now holds the derived copy of the argument. -/
theorem configureCspaceStage_ok (tcb : TcbObj) (cs : CapRaw) (t : TcbObj)
    (h : tcb.configureCspaceStage cs = .ok t) :
    tcb.cspace.objType = ObjType.Null ∧ t = { tcb with cspace := cs } := by
  unfold TcbObj.configureCspaceStage NullCap.try_from derive at h
  by_cases h1 : tcb.cspace.objType = ObjType.Null <;>
    by_cases h2 : cs.objType = ObjType.Null <;>
      simp [h1, h2] at h
  exact ⟨h1, h.symm⟩

/-- If the fault-handler stage of `configure` succeeds, the fault-handler
slot was Null and now holds the derived copy of the argument. -/
theorem configureFaultEpStage_ok (tcb : TcbObj) (ep : CapRaw) (t : TcbObj)
    (h : tcb.configureFaultEpStage ep = .ok t) :
    tcb.fault_handler_ep.objType = ObjType.Null ∧
    t = { tcb with fault_handler_ep := ep } := by
  unfold TcbObj.configureFaultEpStage NullCap.try_from derive at h
  by_cases h1 : tcb.fault_handler_ep.objType = ObjType.Null <;>
    by_cases h2 : ep.objType = ObjType.Null <;>
      simp [h1, h2] at h
  exact ⟨h1, h.symm⟩

/-- Behaviour of the fault-handler block of `configure`: success with a
`Some` argument needs a Null slot; failure leaves the TCB untouched; the
other two slots and the returned source word are never modified here. -/
theorem configureEpPart_spec (tcb : TcbObj) (fhe vsSrc : Option CapRaw) :
    ((tcb.configureEpPart fhe vsSrc).result = .ok () →
      (fhe.isSome = true → tcb.fault_handler_ep.objType = ObjType.Null)) ∧
    (∀ e, (tcb.configureEpPart fhe vsSrc).result = .error e →
      (tcb.configureEpPart fhe vsSrc).tcb = tcb) ∧
    (tcb.configureEpPart fhe vsSrc).tcb.cspace = tcb.cspace ∧
    (tcb.configureEpPart fhe vsSrc).tcb.vspace = tcb.vspace ∧
    (tcb.configureEpPart fhe vsSrc).vspaceSrc = vsSrc := by
  rcases fhe with _ | ep
  · simp [TcbObj.configureEpPart]
  · cases h : tcb.configureFaultEpStage ep with
    | error e => simp [TcbObj.configureEpPart, h]
    | ok t3 =>
      obtain ⟨hnull, ht⟩ := configureFaultEpStage_ok tcb ep t3 h
      simp [TcbObj.configureEpPart, h, ht, hnull]

/-- Behaviour of the cspace and fault-handler blocks of `configure`:
success requires the slots named by `Some` arguments to be Null; on failure
the fault-handler slot is unchanged and the cspace slot changed only if it
was Null; the vspace slot and the returned source word are untouched. -/
theorem configureRest_spec (tcb : TcbObj) (cs fhe vsSrc : Option CapRaw) :
    ((tcb.configureRest cs fhe vsSrc).result = .ok () →
      (cs.isSome = true → tcb.cspace.objType = ObjType.Null) ∧
      (fhe.isSome = true → tcb.fault_handler_ep.objType = ObjType.Null)) ∧
    (∀ e, (tcb.configureRest cs fhe vsSrc).result = .error e →
      (tcb.configureRest cs fhe vsSrc).tcb.fault_handler_ep = tcb.fault_handler_ep ∧
      ((tcb.configureRest cs fhe vsSrc).tcb.cspace ≠ tcb.cspace →
        tcb.cspace.objType = ObjType.Null)) ∧
    (tcb.configureRest cs fhe vsSrc).tcb.vspace = tcb.vspace ∧
    (tcb.configureRest cs fhe vsSrc).vspaceSrc = vsSrc := by
  rcases cs with _ | c
  · simp only [TcbObj.configureRest]
    obtain ⟨hok, herr, _, hvs, hsrc⟩ := configureEpPart_spec tcb fhe vsSrc
    refine ⟨fun hr => ⟨fun hc => by simp at hc, hok hr⟩, fun e he => ?_, hvs, hsrc⟩
    rw [herr e he]
    exact ⟨rfl, fun hc => absurd rfl hc⟩
  · cases h : tcb.configureCspaceStage c with
    | error e => simp [TcbObj.configureRest, h]
    | ok t2 =>
      obtain ⟨hnull, ht⟩ := configureCspaceStage_ok tcb c t2 h
      subst ht
      simp only [TcbObj.configureRest, h]
      obtain ⟨hok, herr, hcs, hvs, hsrc⟩ :=
        configureEpPart_spec { tcb with cspace := c } fhe vsSrc
      refine ⟨fun hr => ⟨fun _ => hnull, hok hr⟩, fun e' he' => ?_, hvs, hsrc⟩
      rw [herr e' he']
      exact ⟨rfl, fun _ => hnull⟩

/-- Claim C1, amended: `configure` with a `Some` argument succeeds only if the
corresponding embedded destination slot is Null; when it fails, the
fault-handler slot is unchanged and any slot the failed call did modify was
Null before the call (it was filled by a completed earlier stage) — but such
earlier-stage modifications persist, so the operation is not transactional
across its three stages. -/
theorem configure_stage_behavior (tcb : TcbObj) (cs vs ep : Option CapRaw) :
    ((tcb.configure cs vs ep).result = .ok () →
      (vs.isSome = true → tcb.vspace.objType = ObjType.Null) ∧
      (cs.isSome = true → tcb.cspace.objType = ObjType.Null) ∧
      (ep.isSome = true → tcb.fault_handler_ep.objType = ObjType.Null)) ∧
    (∀ e, (tcb.configure cs vs ep).result = .error e →
      (tcb.configure cs vs ep).tcb.fault_handler_ep = tcb.fault_handler_ep ∧
      ((tcb.configure cs vs ep).tcb.vspace ≠ tcb.vspace →
        tcb.vspace.objType = ObjType.Null) ∧
      ((tcb.configure cs vs ep).tcb.cspace ≠ tcb.cspace →
        tcb.cspace.objType = ObjType.Null)) := by
  rcases vs with _ | v
  · simp only [TcbObj.configure]
    obtain ⟨hok, herr, hvs, _⟩ := configureRest_spec tcb cs ep none
    refine ⟨fun hr => ⟨fun hv => by simp at hv, (hok hr).1, (hok hr).2⟩, fun e he => ?_⟩
    obtain ⟨hf, hcs⟩ := herr e he
    exact ⟨hf, fun hne => absurd hvs hne, hcs⟩
  · cases h1 : tcb.configureVspaceStage v with
    | error e1 => simp [TcbObj.configure, h1]
    | ok pair =>
      obtain ⟨t1, vsrc⟩ := pair
      obtain ⟨hnull, ht1, _⟩ := configureVspaceStage_ok tcb v (t1, vsrc) h1
      simp only at ht1
      subst ht1
      simp only [TcbObj.configure, h1]
      obtain ⟨hok, herr, hvs, _⟩ :=
        configureRest_spec { tcb with vspace := v } cs ep (some vsrc)
      refine ⟨fun hr => ⟨fun _ => hnull, (hok hr).1, (hok hr).2⟩, fun e he => ?_⟩
      obtain ⟨hf, hcs⟩ := herr e he
      exact ⟨hf, fun _ => hnull, hcs⟩

/-- Witness for C1 (amended): a fully-Null fresh TCB configured with a
cspace, a vspace and a fault-handler endpoint. -/
theorem configure_stage_behavior_witness :
    ((TcbObj.new.configure (some cnodeCapEx) (some vtableCapEx) (some epCapEx)).result =
        .ok () →
      ((some vtableCapEx).isSome = true → TcbObj.new.vspace.objType = ObjType.Null) ∧
      ((some cnodeCapEx).isSome = true → TcbObj.new.cspace.objType = ObjType.Null) ∧
      ((some epCapEx).isSome = true → TcbObj.new.fault_handler_ep.objType = ObjType.Null)) ∧
    (∀ e, (TcbObj.new.configure (some cnodeCapEx) (some vtableCapEx) (some epCapEx)).result =
        .error e →
      (TcbObj.new.configure (some cnodeCapEx) (some vtableCapEx) (some epCapEx)).tcb.fault_handler_ep =
        TcbObj.new.fault_handler_ep ∧
      ((TcbObj.new.configure (some cnodeCapEx) (some vtableCapEx) (some epCapEx)).tcb.vspace ≠
          TcbObj.new.vspace → TcbObj.new.vspace.objType = ObjType.Null) ∧
      ((TcbObj.new.configure (some cnodeCapEx) (some vtableCapEx) (some epCapEx)).tcb.cspace ≠
          TcbObj.new.cspace → TcbObj.new.cspace.objType = ObjType.Null)) :=
  configure_stage_behavior TcbObj.new (some cnodeCapEx) (some vtableCapEx) (some epCapEx)

/-- Counterexample for C2: configuring a fresh TCB with a VTable whose PGD
physical address has bit 28 set records `paddr >> 12 = 2^16` into the
capability — not the 16-bit value `(paddr >> 12) & 0xFFFF = 0` that
`TcbObj::asid()` then reports for the same TCB. -/
theorem configure_asid_unmasked_cx :
    (TcbObj.new.configure none (some vtableCapHigh) none).vspaceSrc =
      some (vtableCapHigh.set_mapped_vaddr_asid 0 (2 ^ 16) Aarch64TopLevel.LEVEL) ∧
    (TcbObj.new.configure none (some vtableCapHigh) none).tcb.asid = .ok 0 ∧
    (2 : Nat) ^ 16 ≠ (vtableCapHigh.paddr >>> 12) &&& MASK 16 :=
  ⟨rfl, rfl, by decide⟩

/-- Claim C2, amended: `TcbObj::asid()` returns `(pgd_paddr >> 12) & 0xFFFF`
for a TCB whose vspace slot holds a VTable, and `install_vspace` records that
same masked value into the capability; `configure` with a vspace, however,
records the unmasked `pgd_paddr >> 12`, which coincides with the ASID only
when the PGD physical address is below `2^28`. -/
theorem asid_pgd_derived :
    (∀ tcb : TcbObj, tcb.vspace.objType = ObjType.VTable →
      tcb.asid = .ok ((tcb.vspace.paddr >>> 12) &&& MASK 16)) ∧
    (∀ (tcb : TcbObj) (vsp : CapRaw),
      (tcb.install_vspace vsp).2.mappedAsid = (vsp.paddr >>> 12) &&& MASK 16 ∧
      (tcb.install_vspace vsp).1.vspace = (tcb.install_vspace vsp).2) ∧
    (∀ (tcb : TcbObj) (vsp : CapRaw), tcb.vspace.objType = ObjType.Null →
      vsp.objType = ObjType.VTable →
      (tcb.configure none (some vsp) none).vspaceSrc =
        some (vsp.set_mapped_vaddr_asid 0 (vsp.paddr >>> 12) Aarch64TopLevel.LEVEL) ∧
      (tcb.configure none (some vsp) none).result = .ok ()) ∧
    (∀ p : Nat, p < 2 ^ 28 → (p >>> 12) &&& MASK 16 = p >>> 12) := by
  refine ⟨fun tcb h => ?_, fun tcb vsp => ⟨rfl, rfl⟩, fun tcb vsp hnull hvt => ?_, fun p hp => ?_⟩
  · simp [TcbObj.asid, VTableCap.try_from, h]
  · have : vsp.objType ≠ ObjType.Null := by rw [hvt]; intro hc; cases hc
    simp [TcbObj.configure, TcbObj.configureVspaceStage, TcbObj.configureRest,
      TcbObj.configureEpPart, NullCap.try_from, derive, hnull, this]
  · have h12 : p >>> 12 < 2 ^ 16 := by
      rw [Nat.shiftRight_eq_div_pow]
      have hpow : (2 : Nat) ^ 16 * 2 ^ 12 = 2 ^ 28 := by norm_num
      exact (Nat.div_lt_iff_lt_mul (by norm_num)).mpr (hpow ▸ hp)
    unfold MASK
    exact Nat.and_pow_two_sub_one_of_lt_two_pow h12

/-- Witness for C2 (amended): a TCB holding a concrete VTable, the same
VTable installed via `install_vspace`, and `configure` on a fresh TCB. -/
theorem asid_pgd_derived_witness :
    tcbWithVspace.asid = .ok ((tcbWithVspace.vspace.paddr >>> 12) &&& MASK 16) ∧
    (TcbObj.new.install_vspace vtableCapEx).2.mappedAsid =
      (vtableCapEx.paddr >>> 12) &&& MASK 16 ∧
    (TcbObj.new.configure none (some vtableCapEx) none).vspaceSrc =
      some (vtableCapEx.set_mapped_vaddr_asid 0 (vtableCapEx.paddr >>> 12)
        Aarch64TopLevel.LEVEL) ∧
    (vtableCapEx.paddr >>> 12) &&& MASK 16 = vtableCapEx.paddr >>> 12 :=
  ⟨asid_pgd_derived.1 tcbWithVspace rfl,
   (asid_pgd_derived.2.1 TcbObj.new vtableCapEx).1,
   (asid_pgd_derived.2.2.1 TcbObj.new vtableCapEx rfl rfl).1,
   asid_pgd_derived.2.2.2 vtableCapEx.paddr (by decide)⟩

/-- Claim C6: starting from any single-`vaddr` table state whose leaf slot is
free, the spawn retry loop calls `map_table` exactly for the missing
intermediate tables, at the reported levels and in report order, and exits
normally with the frame mapped; when `map_frame` reports anything other than
`VSpaceTableMiss` (here, the occupied-slot case), the loop panics — and the
iteration budget is never exhausted (the loop terminates). -/
theorem spawn_map_loop_spec (v : VSpaceSt) :
    (v.frame = false →
      spawn_map_loop v = some (.ok ⟨true, true, true, true⟩ (missingLevels v))) ∧
    (v.frame = true → spawn_map_loop v = some (.panic .VSpaceSlotOccupied)) := by
  obtain ⟨t1, t2, t3, f⟩ := v
  cases t1 <;> cases t2 <;> cases t3 <;> cases f <;> decide

/-- Witness for C6: an address with no intermediate tables present — all
three levels are mapped, in ascending order, and the loop exits normally. -/
theorem spawn_map_loop_spec_witness :
    spawn_map_loop ⟨false, false, false, false⟩ =
      some (.ok ⟨true, true, true, true⟩ (missingLevels ⟨false, false, false, false⟩)) :=
  (spawn_map_loop_spec ⟨false, false, false, false⟩).1 rfl

/-- Claim C7: `activate` writes `(cpuid << 48) | thread_id` into the per-CPU
user-readable register `tpidrro_el0`, switches to the thread's VSpace —
installing its PGD root and PGD-derived ASID and invalidating the TLB
entries tagged with that ASID — and then restores the thread's TrapFrame. -/
theorem activate_behavior (tcb : TcbObj) (addr cpuid : Nat) (m : Machine)
    (h : tcb.vspace.objType = ObjType.VTable) :
    (tcb.activate addr cpuid m).tpidrro_el0 = (cpuid <<< 48) ||| thread_id addr ∧
    (tcb.activate addr cpuid m).installedRoot = some tcb.vspace.paddr ∧
    (tcb.activate addr cpuid m).installedAsid =
      some ((tcb.vspace.paddr >>> 12) &&& MASK 16) ∧
    (tcb.activate addr cpuid m).tlbInvalidated =
      ((tcb.vspace.paddr >>> 12) &&& MASK 16) :: m.tlbInvalidated ∧
    (tcb.activate addr cpuid m).restoredTf = some tcb.tf := by
  have htry : VTableCap.try_from tcb.vspace = .ok tcb.vspace := by
    simp [VTableCap.try_from, h]
  simp [TcbObj.activate, TcbObj.switch_vspace, TcbObj.asid, htry,
    Machine.install_user_vspace, Machine.invalidate_tlb_by_asid]

/-- Witness for C7: a TCB holding a concrete VTable, activated on CPU 1. -/
theorem activate_behavior_witness :
    (tcbWithVspace.activate 2048 1 machineEx).tpidrro_el0 =
      (1 <<< 48) ||| thread_id 2048 ∧
    (tcbWithVspace.activate 2048 1 machineEx).installedRoot =
      some tcbWithVspace.vspace.paddr ∧
    (tcbWithVspace.activate 2048 1 machineEx).installedAsid =
      some ((tcbWithVspace.vspace.paddr >>> 12) &&& MASK 16) ∧
    (tcbWithVspace.activate 2048 1 machineEx).tlbInvalidated =
      ((tcbWithVspace.vspace.paddr >>> 12) &&& MASK 16) :: machineEx.tlbInvalidated ∧
    (tcbWithVspace.activate 2048 1 machineEx).restoredTf = some tcbWithVspace.tf :=
  activate_behavior tcbWithVspace 2048 1 machineEx rfl

/-! ### Facts about `trailing_zeros` and bit clearing, for the notification
dispatch loop -/

theorem trailingZerosAux_le : ∀ fuel m : Nat, trailingZerosAux fuel m ≤ fuel := by
  intro fuel
  induction fuel with
  | zero => intro m; simp [trailingZerosAux]
  | succ k ih =>
    intro m
    by_cases hodd : m % 2 = 1
    · simp [trailingZerosAux, hodd]
    · simp only [trailingZerosAux, if_neg hodd]
      have := ih (m / 2)
      omega

theorem trailingZerosAux_testBit : ∀ fuel m : Nat, trailingZerosAux fuel m < fuel →
    m.testBit (trailingZerosAux fuel m) = true := by
  intro fuel
  induction fuel with
  | zero => intro m h; omega
  | succ k ih =>
    intro m h
    by_cases hodd : m % 2 = 1
    · simp [trailingZerosAux, hodd]
    · simp only [trailingZerosAux, if_neg hodd] at h ⊢
      rw [Nat.add_comm 1 (trailingZerosAux k (m / 2)), Nat.testBit_succ]
      exact ih (m / 2) (by omega)

theorem trailingZerosAux_lower : ∀ fuel m i : Nat, i < trailingZerosAux fuel m →
    m.testBit i = false := by
  intro fuel
  induction fuel with
  | zero => intro m i h; simp [trailingZerosAux] at h
  | succ k ih =>
    intro m i h
    by_cases hodd : m % 2 = 1
    · simp [trailingZerosAux, hodd] at h
    · simp only [trailingZerosAux, if_neg hodd] at h
      cases i with
      | zero =>
        simp only [Nat.testBit_zero, decide_eq_false_iff_not]
        exact hodd
      | succ j =>
        rw [Nat.testBit_succ]
        exact ih (m / 2) j (by omega)

theorem trailingZerosAux_lt : ∀ fuel m : Nat, 0 < m → m < 2 ^ fuel →
    trailingZerosAux fuel m < fuel := by
  intro fuel
  induction fuel with
  | zero => intro m h0 hm; simp at hm; omega
  | succ k ih =>
    intro m h0 hm
    by_cases hodd : m % 2 = 1
    · simp only [trailingZerosAux, if_pos hodd]
      omega
    · simp only [trailingZerosAux, if_neg hodd]
      have h2 : 0 < m / 2 := by omega
      have h3 : m / 2 < 2 ^ k := by
        rw [Nat.pow_succ] at hm
        omega
      have := ih (m / 2) h2 h3
      omega

theorem u64_trailing_zeros_eq_64_imp (m : Nat) (hm : m < 2 ^ 64)
    (h : u64_trailing_zeros m = 64) : m = 0 := by
  by_contra h0
  have := trailingZerosAux_lt 64 m (Nat.pos_of_ne_zero h0) hm
  unfold u64_trailing_zeros at h
  omega

theorem u64_clear_bit_testBit (m t i : Nat) (ht : t < 64) :
    (m &&& u64_not (1 <<< t)).testBit i =
      (m.testBit i && decide (i < 64) && !decide (i = t)) := by
  have h1 : (1 : Nat) <<< t = 2 ^ t := by rw [Nat.shiftLeft_eq, Nat.one_mul]
  simp only [u64_not, h1, Nat.testBit_and, Nat.testBit_xor,
    Nat.testBit_two_pow_sub_one, Nat.testBit_two_pow]
  by_cases hi : i < 64 <;> by_cases he : i = t
  · subst he; simp [hi]
  · have hne : ¬(t = i) := fun hc => he hc.symm
    simp [hi, he, hne]
  · subst he; exact absurd ht hi
  · have hne : ¬(t = i) := fun hc => he hc.symm
    simp [hi, he, hne]

theorem filter_range_split (p q : Nat → Bool) (t : Nat) :
    ∀ n, t < n → (∀ i, i < t → p i = false) → p t = true → q t = false →
      (∀ i, i < n → i ≠ t → q i = p i) →
      (List.range n).filter p = t :: (List.range n).filter q := by
  intro n
  induction n with
  | zero => intro h; omega
  | succ k ihn =>
    intro htn hlow hpt hqt hoth
    rcases Nat.lt_or_ge t k with hlt | hge
    · rw [List.range_succ, List.filter_append, List.filter_append,
        ihn hlt hlow hpt hqt fun i hik hit => hoth i (by omega) hit]
      have hq : q k = p k := hoth k (by omega) (by omega)
      rw [List.cons_append]
      simp [List.filter_cons, hq]
    · have htk : t = k := by omega
      subst htk
      rw [List.range_succ, List.filter_append, List.filter_append]
      have h1 : (List.range t).filter p = [] := by
        rw [List.filter_eq_nil_iff]
        intro a ha
        simp [hlow a (List.mem_range.mp ha)]
      have h2 : (List.range t).filter q = [] := by
        rw [List.filter_eq_nil_iff]
        intro a ha
        have halt := List.mem_range.mp ha
        rw [hoth a (by omega) (by omega)]
        simp [hlow a halt]
      simp [h1, h2, hpt, hqt]

/-- Each loop iteration clears the lowest set bit, so the list of set bits of
the mask splits off its head. -/
theorem setBits64_split (m : Nat) (htlt : u64_trailing_zeros m < 64) :
    setBits64 m =
      u64_trailing_zeros m :: setBits64 (m &&& u64_not (1 <<< u64_trailing_zeros m)) := by
  have hbit : m.testBit (u64_trailing_zeros m) = true :=
    trailingZerosAux_testBit 64 m htlt
  have hm2bits := fun i => u64_clear_bit_testBit m (u64_trailing_zeros m) i htlt
  unfold setBits64
  refine filter_range_split _ _ _ 64 htlt
    (fun i hi => trailingZerosAux_lower 64 m i hi) hbit ?_ ?_
  · rw [hm2bits]; simp
  · intro i hi hit
    rw [hm2bits]
    simp [hi, hit]

theorem handleNotificationsGo_spec (handlers : Nat → Bool) :
    ∀ m, m < 2 ^ 64 → ∀ fuel, (setBits64 m).length < fuel →
      handleNotificationsGo handlers fuel m = some ((setBits64 m).filter handlers) := by
  intro m
  induction m using Nat.strong_induction_on with
  | _ m ih =>
    intro hm fuel hf
    cases fuel with
    | zero => omega
    | succ k =>
      by_cases htz : u64_trailing_zeros m = 64
      · have hm0 : m = 0 := u64_trailing_zeros_eq_64_imp m hm htz
        subst hm0
        simp [handleNotificationsGo, htz, setBits64]
      · have htle : u64_trailing_zeros m ≤ 64 := trailingZerosAux_le 64 m
        have htlt : u64_trailing_zeros m < 64 := by omega
        have hbit : m.testBit (u64_trailing_zeros m) = true :=
          trailingZerosAux_testBit 64 m htlt
        have hm2bits := fun i => u64_clear_bit_testBit m (u64_trailing_zeros m) i htlt
        have hsplit := setBits64_split m htlt
        have hm2le : (m &&& u64_not (1 <<< u64_trailing_zeros m)) ≤ m := Nat.and_le_left
        have hm2ne : (m &&& u64_not (1 <<< u64_trailing_zeros m)) ≠ m := by
          intro hEq
          have hb := hm2bits (u64_trailing_zeros m)
          rw [hEq, hbit] at hb
          simp at hb
        have hm2lt : (m &&& u64_not (1 <<< u64_trailing_zeros m)) < m :=
          Nat.lt_of_le_of_ne hm2le hm2ne
        have hm2sm : (m &&& u64_not (1 <<< u64_trailing_zeros m)) < 2 ^ 64 :=
          Nat.lt_of_le_of_lt hm2le hm
        have hlen : (setBits64 (m &&& u64_not (1 <<< u64_trailing_zeros m))).length < k := by
          have hll : (setBits64 m).length =
              (setBits64 (m &&& u64_not (1 <<< u64_trailing_zeros m))).length + 1 := by
            rw [hsplit]; rfl
          omega
        have hrec := ih _ hm2lt hm2sm k hlen
        simp only [handleNotificationsGo, if_pos htz, hrec]
        rw [hsplit, List.filter_cons]

/-- Claim C9: for every `u64` notification mask, the dispatch loop of
`EpServer::handle_ipc` terminates (the iteration budget is never exhausted),
and the handler-invocation sequence is exactly the ascending list of set bit
positions that have a registered handler: each such bit exactly once, and
never a clear bit. -/
theorem notification_dispatch (handlers : Nat → Bool) (mask : Nat)
    (hm : mask < 2 ^ 64) :
    handle_notifications handlers mask = some ((setBits64 mask).filter handlers) ∧
    List.Pairwise (· < ·) ((setBits64 mask).filter handlers) ∧
    ((setBits64 mask).filter handlers).Nodup ∧
    (∀ i, i ∈ (setBits64 mask).filter handlers ↔
      (i < 64 ∧ mask.testBit i = true ∧ handlers i = true)) := by
  have hsub : List.Sublist ((setBits64 mask).filter handlers) (List.range 64) :=
    (List.filter_sublist _).trans (List.filter_sublist _)
  have hlen : (setBits64 mask).length < 65 := by
    have h1 := List.length_filter_le (fun i => mask.testBit i) (List.range 64)
    simp only [setBits64]
    simp only [List.length_range] at h1
    omega
  refine ⟨handleNotificationsGo_spec handlers mask hm 65 hlen,
    List.Pairwise.sublist hsub (List.pairwise_lt_range 64),
    List.Nodup.sublist hsub (List.nodup_range 64),
    fun i => ?_⟩
  simp only [setBits64, List.mem_filter, List.mem_range]
  tauto

/-- Witness for C9: the mask `0b101` with every handler registered — the
loop returns and dispatches bits 0 and 2 in order. -/
theorem notification_dispatch_witness :
    handle_notifications (fun _ => true) 5 =
      some ((setBits64 5).filter (fun _ => true)) :=
  (notification_dispatch (fun _ => true) 5 (by decide)).1

/-- Claim C10: the byte-buffer conversions round-trip losslessly:
`Buf::from_string(s).into_string()` returns `Ok(s)` for every string, and
`OsString::from_vec(v).into_vec()` returns exactly `v` for arbitrary byte
sequences. -/
theorem buf_osstring_roundtrip :
    (∀ s : RustString, (Buf.from_string s).into_string = .ok s) ∧
    (∀ v : List Nat, (OsString.from_vec v).into_vec = v) := by
  refine ⟨fun s => ?_, fun v => rfl⟩
  cases s with
  | mk vec valid =>
    simp [Buf.from_string, Buf.into_string, RustString.from_utf8,
      RustString.into_bytes, valid]

end LakeOS
